import Mathlib

/-
Verification of the todo REST service (package `todo` plus `server.go`).

The Go program is shallowly embedded: each HTTP handler method of
`todoHandlers` becomes a Lean function from its request data and the
current store to the produced response, the resulting store, and the
sequence of lock / map-access events it performs (in program order).
Machine integers (`int64`) are modelled as `Int` with explicit range
checks where the source performs them (`strconv.ParseInt`,
`json.Unmarshal` into an `int64` field).
-/

namespace RestGo

/-- largest value of Go's `int64`. -/
def maxInt64 : Int := 9223372036854775807

/-- smallest value of Go's `int64`. -/
def minInt64 : Int := -9223372036854775808

/-- the `Todo` struct of `internals/todo/todo.go`: `Id int64`, `Title string`,
`Done bool`, with JSON tags `id`, `title`, `done`. -/
structure Todo where
  id : Int
  title : String
  done : Bool
deriving DecidableEq, Repr

/-- JSON values, as `encoding/json` sees them after parsing.  Numbers are
restricted to integers: the wire format of this service only ever carries
integer numbers, and decoding a non-integer number into `int64` errors in Go
just like a string would (no claim depends on that distinction). -/
inductive Json where
  | null
  | bool (b : Bool)
  | num (n : Int)
  | str (s : String)
  | arr (xs : List Json)
  | obj (fields : List (String × Json))

/-- the in-memory store `map[int64]Todo`, modelled as an association list
with (by construction) at most one entry per key. -/
abbrev Store := List (Int × Todo)

/-- map read `h.store[id]`. -/
def storeLookup : Store → Int → Option Todo
  | [], _ => none
  | (k, t) :: rest, id => if k = id then some t else storeLookup rest id

/-- map write `h.store[todo.Id] = todo` (insert or overwrite). -/
def storeInsert : Store → Int → Todo → Store
  | [], id, t => [(id, t)]
  | (k, u) :: rest, id, t =>
      if k = id then (id, t) :: rest else (k, u) :: storeInsert rest id t

/-- builtin `delete(h.store, id)`. -/
def storeErase : Store → Int → Store
  | [], _ => []
  | (k, u) :: rest, id => if k = id then rest else (k, u) :: storeErase rest id

/-- the values of the store, in iteration order of the model
(Go's map iteration order is unspecified; the list order stands in for it). -/
def storeValues (st : Store) : List Todo := st.map (fun p => p.2)

/-- `json.Marshal` of a `Todo`: an object with exactly the tagged fields
`id`, `title`, `done`, in struct order. -/
def encodeTodo (t : Todo) : Json :=
  Json.obj [("id", Json.num t.id), ("title", Json.str t.title), ("done", Json.bool t.done)]

/-- `json.Marshal` of a `[]Todo` slice: a nil slice marshals to `null`,
a non-nil slice (even empty) to a JSON array. -/
def marshalTodoSlice : Option (List Todo) → Json
  | none => Json.null
  | some ts => Json.arr (ts.map encodeTodo)

/-- effect of one JSON object member on the partially decoded `Todo`,
following `encoding/json` struct decoding: keys are matched against the
field tags (Go additionally accepts case-insensitive key matches, which no
claim exercises and which is not modelled), a `null` member is a no-op, a
type mismatch or an out-of-`int64`-range number is an error, and unknown
keys are ignored. -/
def setField (t : Todo) : String × Json → Except String Todo
  | ("id", Json.num n) =>
      if minInt64 ≤ n ∧ n ≤ maxInt64 then Except.ok { t with id := n }
      else Except.error "json: cannot unmarshal number into Go struct field Todo.id of type int64"
  | ("id", Json.null) => Except.ok t
  | ("id", _) => Except.error "json: cannot unmarshal value into Go struct field Todo.id of type int64"
  | ("title", Json.str s) => Except.ok { t with title := s }
  | ("title", Json.null) => Except.ok t
  | ("title", _) => Except.error "json: cannot unmarshal value into Go struct field Todo.title of type string"
  | ("done", Json.bool b) => Except.ok { t with done := b }
  | ("done", Json.null) => Except.ok t
  | ("done", _) => Except.error "json: cannot unmarshal value into Go struct field Todo.done of type bool"
  | (_, _) => Except.ok t

/-- `json.Unmarshal(bodyBytes, &todo)` on an already-parsed JSON value:
the target starts as the zero `Todo`, an object sets the fields it carries
(absent fields keep their zero values), `null` is a no-op, and any other
top-level value is a type error. -/
def decodeTodo : Json → Except String Todo
  | Json.obj fields => fields.foldlM setField { id := 0, title := "", done := false }
  | Json.null => Except.ok { id := 0, title := "", done := false }
  | _ => Except.error "json: cannot unmarshal value into Go value of type todo.Todo"

/-- `json.Unmarshal` on raw body bytes: the bytes either fail to parse
(syntax error, carried as the error message) or parse to a JSON value which
is then decoded into a `Todo`. -/
def unmarshalTodo : Except String Json → Except String Todo
  | Except.error e => Except.error e
  | Except.ok j => decodeTodo j

/-- value of a decimal digit string, most significant first. -/
def digitsToNat (cs : List Char) : Nat :=
  cs.foldl (fun acc c => acc * 10 + (c.toNat - ('0').toNat)) 0

/-- tail of the path after `todo/`, against `([\d]+)/?$`: one or more
digits (the capture group), then an optional slash, then the end. -/
def matchAfterTodo (cs : List Char) : Option (List Char) :=
  if cs.takeWhile Char.isDigit = [] then none
  else
    match cs.dropWhile Char.isDigit with
    | [] => some (cs.takeWhile Char.isDigit)
    | ['/'] => some (cs.takeWhile Char.isDigit)
    | _ => none

/-- the `^/?` of the pattern: an optional leading slash. -/
def stripSlash : List Char → List Char
  | '/' :: rest => rest
  | l => l

/-- the path pattern compiled in `server.go`'s `init`:
`^/?todo/([\d]+)/?$`.  Returns the capture group (the digit run) when the
whole path matches, combining `MatchString` and `FindStringSubmatch(...)[1]`. -/
def pathMatch (p : String) : Option String :=
  match stripSlash p.data with
  | 't' :: 'o' :: 'd' :: 'o' :: '/' :: rest => (matchAfterTodo rest).map fun ds => String.mk ds
  | _ => none

/-- `strconv.ParseInt(idParam, 10, 64)` restricted to the strings the regex
capture can produce (no sign): it succeeds exactly on a nonempty all-digit
string whose value fits in `int64`, and errors otherwise (`ErrRange` for
too-large values, `ErrSyntax` for the rest). -/
def parseInt64 (s : String) : Option Int :=
  if s.data ≠ [] ∧ s.data.all Char.isDigit then
    if (digitsToNat s.data : Int) ≤ maxInt64 then some (digitsToNat s.data : Int) else none
  else none

/-- atomic events a handler performs on the shared mutex and store, in
program order: `lock`/`unlock` are `h.mu.Lock()`/`h.mu.Unlock()`,
`read`/`write`/`del` are the map operations, `readLen` is `len(h.store)`
and `iterate` is the `range` loop of the list handler. -/
inductive Ev where
  | lock
  | unlock
  | readLen
  | iterate
  | read (id : Int)
  | write (id : Int)
  | del (id : Int)
deriving DecidableEq, Repr

/-- response body: either plain text written with `w.Write([]byte(...))`,
or the marshalled bytes of a JSON value. -/
inductive Body where
  | text (s : String)
  | json (j : Json)

/-- observable HTTP response: status code (200 when the handler never calls
`WriteHeader`), body (empty text when nothing is written), and the
`content-type` header when the handler explicitly adds one. -/
structure Response where
  status : Nat
  body : Body
  contentType : Option String

/-- the store literal in `NewTodoHandlers`: id 1 "Do dishes" not done,
id 2 "Sweep" done. -/
def seedStore : Store :=
  [(1, { id := 1, title := "Do dishes", done := false }),
   (2, { id := 2, title := "Sweep", done := true })]

/-- handler `todoHandlers.post`: read the body (an error is answered with
500 and the error's own message), require the `content-type` header value
to equal `application/json`, unmarshal the body into a `Todo` (an error is
answered with 400 and the error's message), then under the mutex (taken
with a deferred unlock) store the todo at its id.  The success path writes
neither status nor body.  `readErr` is the error of `ioutil.ReadAll` when
it fails; `body` is the parse outcome of the bytes it returns. -/
def post (readErr : Option String) (ct : String) (body : Except String Json) (st : Store) :
    Response × Store × List Ev :=
  match readErr with
  | some e => ({ status := 500, body := Body.text e, contentType := none }, st, [])
  | none =>
    if ct ≠ "application/json" then
      ({ status := 400, body := Body.text "application/json required", contentType := none }, st, [])
    else
      match unmarshalTodo body with
      | Except.error e => ({ status := 400, body := Body.text e, contentType := none }, st, [])
      | Except.ok todo =>
          ({ status := 200, body := Body.text "", contentType := none },
           storeInsert st todo.id todo,
           [Ev.lock, Ev.write todo.id, Ev.unlock])

/-- handler `todoHandlers.get`: allocate `make([]Todo, len(h.store))`
(reading the length before taking the lock), copy the entries under the
mutex, then marshal the (non-nil) slice and answer 200 with
`content-type: application/json`.  Marshalling a `[]Todo` cannot fail, so
the 500 branch of the source is unreachable and not modelled. -/
def get (st : Store) : Response × Store × List Ev :=
  ({ status := 200,
     body := Body.json (marshalTodoSlice (some (storeValues st))),
     contentType := some "application/json" },
   st,
   [Ev.readLen, Ev.lock, Ev.iterate, Ev.unlock])

/-- handler `todoHandlers.getOne`: 400 when the path misses the pattern,
500 "Bad stuff happened" when the captured digits fail `ParseInt`,
otherwise take the mutex and read the map; the not-found branch returns
404 directly (without unlocking), the found branch unlocks, marshals the
todo and answers 200 with `content-type: application/json`. -/
def getOne (p : String) (st : Store) : Response × Store × List Ev :=
  match pathMatch p with
  | none =>
      ({ status := 400, body := Body.text "Invalid path, should be /todo/\x7bid\x7d",
         contentType := none }, st, [])
  | some idParam =>
    match parseInt64 idParam with
    | none =>
        ({ status := 500, body := Body.text "Bad stuff happened", contentType := none }, st, [])
    | some id =>
      match storeLookup st id with
      | none =>
          ({ status := 404,
             body := Body.text ("Todo with " ++ toString id ++ " does not exist"),
             contentType := none },
           st, [Ev.lock, Ev.read id])
      | some todo =>
          ({ status := 200, body := Body.json (encodeTodo todo),
             contentType := some "application/json" },
           st, [Ev.lock, Ev.read id, Ev.unlock])

/-- handler `todoHandlers.delete`: same path and parse handling as
`getOne`; then take the mutex and probe the map; the not-found branch
returns 404 directly (without unlocking), the found branch unlocks first
and only then deletes the entry, answering 200 with
`content-type: application/json` and an empty body. -/
def delete (p : String) (st : Store) : Response × Store × List Ev :=
  match pathMatch p with
  | none =>
      ({ status := 400, body := Body.text "Invalid path, should be /todo/\x7bid\x7d",
         contentType := none }, st, [])
  | some idParam =>
    match parseInt64 idParam with
    | none =>
        ({ status := 500, body := Body.text "Bad stuff happened", contentType := none }, st, [])
    | some id =>
      match storeLookup st id with
      | none =>
          ({ status := 404,
             body := Body.text ("Todo with " ++ toString id ++ " does not exist"),
             contentType := none },
           st, [Ev.lock, Ev.read id])
      | some _ =>
          ({ status := 200, body := Body.text "", contentType := some "application/json" },
           storeErase st id,
           [Ev.lock, Ev.read id, Ev.unlock, Ev.del id])

/-- net change a trace makes to the mutex: number of `lock`s minus number
of `unlock`s.  A handler that releases the lock before returning leaves
balance 0. -/
def lockBalance (tr : List Ev) : Int :=
  tr.foldl
    (fun b e =>
      match e with
      | Ev.lock => b + 1
      | Ev.unlock => b - 1
      | _ => b)
    0

/-- checks that every store access in the trace happens while the mutex is
held, starting from `b` outstanding acquisitions. -/
def accessesLocked : List Ev → Int → Bool
  | [], _ => true
  | Ev.lock :: rest, b => accessesLocked rest (b + 1)
  | Ev.unlock :: rest, b => accessesLocked rest (b - 1)
  | _ :: rest, b => decide (0 < b) && accessesLocked rest b

/-- scanning helper: is there an `unlock` before the next `del`? -/
def unlockBeforeDel : List Ev → Bool
  | [] => false
  | Ev.del _ :: _ => false
  | Ev.unlock :: _ => true
  | _ :: rest => unlockBeforeDel rest

/-- does the trace release the mutex strictly between the membership check
(the first map `read`) and the removal (the next `del`)? -/
def unlockBetweenCheckAndRemoval : List Ev → Bool
  | [] => false
  | Ev.read _ :: rest => unlockBeforeDel rest
  | _ :: rest => unlockBetweenCheckAndRemoval rest

/-- helper: a successful match of the `todo/` tail yields a nonempty run
of decimal digits. -/
theorem matchAfterTodo_shape {cs ds : List Char} (h : matchAfterTodo cs = some ds) :
    ds ≠ [] ∧ ds.all Char.isDigit = true := by
  unfold matchAfterTodo at h
  by_cases hd : cs.takeWhile Char.isDigit = []
  · rw [if_pos hd] at h; cases h
  · rw [if_neg hd] at h
    have hds : ds = cs.takeWhile Char.isDigit := by
      split at h
      · exact (Option.some.inj h).symm
      · exact (Option.some.inj h).symm
      · cases h
    rw [hds]
    exact ⟨hd, List.all_takeWhile⟩

/-- helper: the capture group of `^/?todo/([\d]+)/?$` is a nonempty run of
decimal digits. -/
theorem pathMatch_shape {p d : String} (h : pathMatch p = some d) :
    d.data ≠ [] ∧ d.data.all Char.isDigit = true := by
  unfold pathMatch at h
  split at h
  · rw [Option.map_eq_some'] at h
    obtain ⟨ds, hds, hmk⟩ := h
    have hs := matchAfterTodo_shape hds
    rw [← hmk]
    exact hs
  · cases h

/-- helper: on a nonempty all-digit string, `ParseInt` is determined by the
numeric value of the digits and the `int64` range check. -/
theorem parseInt64_digits {s : String} (h : s.data ≠ [] ∧ s.data.all Char.isDigit = true) :
    parseInt64 s
      = if (digitsToNat s.data : Int) ≤ maxInt64
        then some (digitsToNat s.data : Int) else none := by
  unfold parseInt64
  rw [if_pos h]

/-- helper: reading a key right after writing it returns the written todo. -/
theorem storeLookup_insert (st : Store) (id : Int) (t : Todo) :
    storeLookup (storeInsert st id t) id = some t := by
  induction st with
  | nil => simp [storeInsert, storeLookup]
  | cons hd rest ih =>
    obtain ⟨k, u⟩ := hd
    by_cases hk : k = id <;> simp [storeInsert, storeLookup, hk, ih]

/-- helper: decoding the marshalled form of a todo whose id fits in `int64`
recovers the todo. -/
theorem decode_encode {t : Todo} (hmin : minInt64 ≤ t.id) (hmax : t.id ≤ maxInt64) :
    decodeTodo (encodeTodo t) = Except.ok t := by
  obtain ⟨id, title, done⟩ := t
  simp [encodeTodo, decodeTodo, List.foldlM, setField, hmin, hmax]
  rfl

/-- C1: the claim says the existence check and the removal in the delete
handler happen under one uninterrupted hold of the lock.  The code instead
calls `h.mu.Unlock()` and only afterwards `delete(h.store, id)`: on
`DELETE /todo/1` against the seed store the event trace is
lock, read, unlock, del — the mutex is released strictly between the
membership check and the removal, so another delete of the same id can be
interleaved there and both report "found". -/
theorem c1_delete_unlocks_before_removal :
    (delete "/todo/1" seedStore).2.2 = [Ev.lock, Ev.read 1, Ev.unlock, Ev.del 1] ∧
    unlockBetweenCheckAndRemoval (delete "/todo/1" seedStore).2.2 = true := ⟨rfl, rfl⟩

/-- C2: the claim says every store operation releases the lock before
returning and holds it for all collection access.  The code violates both:
the not-found branches of `getOne` and `delete` return while still holding
the mutex (lock balance 1 instead of 0), the delete handler removes the
entry after unlocking, and the list handler reads `len(h.store)` before
locking. -/
theorem c2_lock_discipline_broken :
    lockBalance (getOne "/todo/999" seedStore).2.2 = 1 ∧
    lockBalance (delete "/todo/999" seedStore).2.2 = 1 ∧
    accessesLocked (delete "/todo/1" seedStore).2.2 0 = false ∧
    accessesLocked (get seedStore).2.2 0 = false := ⟨rfl, rfl, rfl, rfl⟩

/-- C3 counterexample: on a body-read failure the POST handler answers 500
with `err.Error()` itself as the body — the body varies with the underlying
error, so it is not a generic message free of diagnostic detail. -/
theorem c3_counterexample :
    (post (some "unexpected EOF") "application/json" (Except.ok Json.null) seedStore).1
      = { status := 500, body := Body.text "unexpected EOF", contentType := none } ∧
    (post (some "connection reset") "application/json" (Except.ok Json.null) seedStore).1
      = { status := 500, body := Body.text "connection reset", contentType := none } := ⟨rfl, rfl⟩

/-- C3 amended: every internal-error branch answers 500, but only the
integer-parse failure of the item route uses the generic body
"Bad stuff happened"; the body-read failure of POST echoes the read
error's own message as the body (leaking diagnostic detail), and leaves
the store unchanged. -/
theorem c3_amended_internal_errors (e ct : String) (b : Except String Json) (st : Store)
    (p d : String) (hm : pathMatch p = some d) (hp : parseInt64 d = none) :
    (post (some e) ct b st).1 = { status := 500, body := Body.text e, contentType := none } ∧
    (post (some e) ct b st).2.1 = st ∧
    (getOne p st).1 = { status := 500, body := Body.text "Bad stuff happened", contentType := none } ∧
    (delete p st).1 = { status := 500, body := Body.text "Bad stuff happened", contentType := none } := by
  refine ⟨rfl, rfl, ?_, ?_⟩ <;> simp [getOne, delete, hm, hp]

/-- C3 witness: the amended statement instantiated at a concrete read error
and at the concrete overflowing path `/todo/9223372036854775808`. -/
theorem c3_witness :
    (post (some "boom") "text/plain" (Except.error "x") seedStore).1
      = { status := 500, body := Body.text "boom", contentType := none } ∧
    (getOne "/todo/9223372036854775808" seedStore).1
      = { status := 500, body := Body.text "Bad stuff happened", contentType := none } :=
  ⟨(c3_amended_internal_errors "boom" "text/plain" (Except.error "x") seedStore
      "/todo/9223372036854775808" "9223372036854775808" rfl rfl).1,
   (c3_amended_internal_errors "boom" "text/plain" (Except.error "x") seedStore
      "/todo/9223372036854775808" "9223372036854775808" rfl rfl).2.2.1⟩

/-- C4: a POST whose `content-type` header value differs (as an exact,
case-sensitive string) from "application/json" is answered 400
"application/json required" whatever the body bytes hold, and the store is
unchanged. -/
theorem c4_bad_content_type (ct : String) (b : Except String Json) (st : Store)
    (h : ct ≠ "application/json") :
    (post none ct b st).1
      = { status := 400, body := Body.text "application/json required", contentType := none } ∧
    (post none ct b st).2.1 = st := by
  simp [post, h]

/-- C4 witness: the theorem instantiated at `content-type: text/plain` with
a malformed body against the seed store. -/
theorem c4_witness :
    (post none "text/plain" (Except.error "unexpected end of JSON input") seedStore).1
      = { status := 400, body := Body.text "application/json required", contentType := none } ∧
    (post none "text/plain" (Except.error "unexpected end of JSON input") seedStore).2.1 = seedStore :=
  c4_bad_content_type "text/plain" (Except.error "unexpected end of JSON input") seedStore (by decide)

/-- C5 counterexample: the empty JSON object `\x7b\x7d` is well-formed and
omits all three fields, yet `json.Unmarshal` accepts it as the zero
`Todo`; the POST handler answers 200 and stores id 0 — so the fields are
not required, contradicting the claim. -/
theorem c5_counterexample :
    decodeTodo (Json.obj []) = Except.ok { id := 0, title := "", done := false } ∧
    (post none "application/json" (Except.ok (Json.obj [])) seedStore).1.status = 200 ∧
    storeLookup (post none "application/json" (Except.ok (Json.obj [])) seedStore).2.1 0
      = some { id := 0, title := "", done := false } := ⟨rfl, rfl, rfl⟩

/-- C5 amended: the wire object produced for a Todo consists of exactly the
fields `id`, `title`, `done` with those exact names, and decoding inverts
encoding; but on decode no field is required — absent fields keep their
zero values, so `\x7b\x7d` is accepted as the zero Todo and stored. -/
theorem c5_wire_fields (t : Todo) (hmin : minInt64 ≤ t.id) (hmax : t.id ≤ maxInt64) :
    encodeTodo t
      = Json.obj [("id", Json.num t.id), ("title", Json.str t.title), ("done", Json.bool t.done)] ∧
    decodeTodo (encodeTodo t) = Except.ok t ∧
    decodeTodo (Json.obj []) = Except.ok { id := 0, title := "", done := false } ∧
    (post none "application/json" (Except.ok (Json.obj [])) seedStore).1.status = 200 :=
  ⟨rfl, decode_encode hmin hmax, rfl, rfl⟩

/-- C5 witness: the amended statement instantiated at the todo
id 3, title "X", not done. -/
theorem c5_witness :
    decodeTodo (encodeTodo { id := 3, title := "X", done := false })
      = Except.ok { id := 3, title := "X", done := false } :=
  (c5_wire_fields { id := 3, title := "X", done := false } (by decide) (by decide)).2.1

/-- C6: a GET or DELETE on an item path whose digit group denotes a value
above the `int64` range fails `strconv.ParseInt` and is answered 500
"Bad stuff happened". -/
theorem c6_out_of_range_id (p d : String) (st : Store)
    (hm : pathMatch p = some d) (hrange : maxInt64 < (digitsToNat d.data : Int)) :
    parseInt64 d = none ∧
    (getOne p st).1 = { status := 500, body := Body.text "Bad stuff happened", contentType := none } ∧
    (delete p st).1 = { status := 500, body := Body.text "Bad stuff happened", contentType := none } := by
  have hd := pathMatch_shape hm
  have hp : parseInt64 d = none := by
    rw [parseInt64_digits hd, if_neg (not_le.mpr hrange)]
  exact ⟨hp, by simp [getOne, hm, hp], by simp [delete, hm, hp]⟩

/-- C6 witness: the theorem instantiated at the path
`/todo/9223372036854775808`, whose id is one above the largest `int64`. -/
theorem c6_witness :
    parseInt64 "9223372036854775808" = none ∧
    (getOne "/todo/9223372036854775808" seedStore).1
      = { status := 500, body := Body.text "Bad stuff happened", contentType := none } :=
  ⟨(c6_out_of_range_id "/todo/9223372036854775808" "9223372036854775808" seedStore rfl (by decide)).1,
   (c6_out_of_range_id "/todo/9223372036854775808" "9223372036854775808" seedStore rfl (by decide)).2.1⟩

/-- C7: for every store, GET /todo answers 200 with `content-type:
application/json` and a JSON array holding all current entries; an empty
collection yields the empty array `[]` (the handler marshals a non-nil
slice), never `null`. -/
theorem c7_list_response (st : Store) :
    (get st).1 = { status := 200,
                   body := Body.json (Json.arr ((storeValues st).map encodeTodo)),
                   contentType := some "application/json" } ∧
    (storeValues st = [] → (get st).1.body = Body.json (Json.arr [])) ∧
    (get st).1.body ≠ Body.json Json.null := by
  refine ⟨rfl, ?_, ?_⟩
  · intro h; simp [get, marshalTodoSlice, h]
  · simp [get, marshalTodoSlice]

/-- C7 witness: the theorem instantiated at the empty store, where the body
is the empty JSON array. -/
theorem c7_witness : (get ([] : Store)).1.body = Body.json (Json.arr []) :=
  (c7_list_response []).2.1 rfl

/-- C8: at startup the store of `NewTodoHandlers` holds exactly the two
seed entries — id 1 "Do dishes" not done and id 2 "Sweep" done — and a
GET /todo at that point returns exactly these two todos. -/
theorem c8_seed_state :
    storeLookup seedStore 1 = some { id := 1, title := "Do dishes", done := false } ∧
    storeLookup seedStore 2 = some { id := 2, title := "Sweep", done := true } ∧
    (storeValues seedStore).length = 2 ∧
    (get seedStore).1
      = { status := 200,
          body := Body.json (Json.arr
            [encodeTodo { id := 1, title := "Do dishes", done := false },
             encodeTodo { id := 2, title := "Sweep", done := true }]),
          contentType := some "application/json" } := ⟨rfl, rfl, rfl, rfl⟩

/-- C9 counterexample: for the todo id -1, title "X", not done — whose id
is absent from the seed store — the POST is accepted and stored, but a
GET of the item path for id -1 misses the digits-only pattern and is
answered 400
"Invalid path", not 200: the round trip of the claim fails for negative
ids. -/
theorem c9_counterexample :
    storeLookup seedStore (-1) = none ∧
    (post none "application/json"
        (Except.ok (encodeTodo { id := -1, title := "X", done := false })) seedStore).1.status = 200 ∧
    storeLookup
        (post none "application/json"
          (Except.ok (encodeTodo { id := -1, title := "X", done := false })) seedStore).2.1 (-1)
      = some { id := -1, title := "X", done := false } ∧
    (getOne ("/todo/" ++ toString (-1 : Int))
        (post none "application/json"
          (Except.ok (encodeTodo { id := -1, title := "X", done := false })) seedStore).2.1).1
      = { status := 400, body := Body.text "Invalid path, should be /todo/\x7bid\x7d",
          contentType := none } := ⟨rfl, rfl, rfl, rfl⟩

/-- C9 amended: for every todo whose id is nonnegative (so that an item
path can denote it) and fits in `int64`, POSTing its JSON encoding with
content-type application/json and then GETting an item path whose digit
group parses to that id answers 200 with exactly the posted object as
JSON body. -/
theorem c9_round_trip (t : Todo) (st : Store) (p d : String)
    (hmin : 0 ≤ t.id) (hmax : t.id ≤ maxInt64)
    (_h_absent : storeLookup st t.id = none)
    (hm : pathMatch p = some d) (hd : parseInt64 d = some t.id) :
    (post none "application/json" (Except.ok (encodeTodo t)) st).1.status = 200 ∧
    (getOne p (post none "application/json" (Except.ok (encodeTodo t)) st).2.1).1
      = { status := 200, body := Body.json (encodeTodo t),
          contentType := some "application/json" } := by
  have hmin' : minInt64 ≤ t.id := le_trans (by decide) hmin
  have hdec : decodeTodo (encodeTodo t) = Except.ok t := decode_encode hmin' hmax
  have hpost : post none "application/json" (Except.ok (encodeTodo t)) st
      = ({ status := 200, body := Body.text "", contentType := none },
         storeInsert st t.id t, [Ev.lock, Ev.write t.id, Ev.unlock]) := by
    simp [post, unmarshalTodo, hdec]
  rw [hpost]
  refine ⟨rfl, ?_⟩
  simp [getOne, hm, hd, storeLookup_insert]

/-- C9 witness: the round trip instantiated at the todo id 3, title "X",
not done, posted to the seed store and fetched at `/todo/3`. -/
theorem c9_witness :
    (getOne "/todo/3"
       (post none "application/json"
         (Except.ok (encodeTodo { id := 3, title := "X", done := false })) seedStore).2.1).1
      = { status := 200, body := Body.json (encodeTodo { id := 3, title := "X", done := false }),
          contentType := some "application/json" } :=
  (c9_round_trip { id := 3, title := "X", done := false } seedStore "/todo/3" "3"
    (by decide) (by decide) rfl rfl rfl).2

/-- C10: item requests are addressed by the numeric value of the digit
group — two matching paths whose digit groups have equal value (leading
zeros, optional slashes notwithstanding) get identical GET and DELETE
outcomes — and the 404 body interpolates the parsed value, so
`GET /todo/007` with id 7 absent answers "Todo with 7 does not exist". -/
theorem c10_numeric_addressing (p1 p2 d1 d2 : String) (st : Store)
    (h1 : pathMatch p1 = some d1) (h2 : pathMatch p2 = some d2)
    (hval : digitsToNat d1.data = digitsToNat d2.data) :
    getOne p1 st = getOne p2 st ∧
    delete p1 st = delete p2 st ∧
    (storeLookup st 7 = none →
      (getOne "/todo/007" st).1
        = { status := 404, body := Body.text "Todo with 7 does not exist", contentType := none }) := by
  have s1 := pathMatch_shape h1
  have s2 := pathMatch_shape h2
  have hp : parseInt64 d1 = parseInt64 d2 := by
    rw [parseInt64_digits s1, parseInt64_digits s2, hval]
  refine ⟨?_, ?_, ?_⟩
  · simp [getOne, h1, h2, hp]
  · simp [delete, h1, h2, hp]
  · intro h7
    have e1 : pathMatch "/todo/007" = some "007" := rfl
    have e2 : parseInt64 "007" = some 7 := rfl
    simp [getOne, e1, e2, h7]
    rfl

/-- C10 witness: the theorem instantiated at the paths `/todo/007` and
`todo/7/` against the seed store, where id 7 is absent. -/
theorem c10_witness :
    getOne "/todo/007" seedStore = getOne "todo/7/" seedStore ∧
    (getOne "/todo/007" seedStore).1
      = { status := 404, body := Body.text "Todo with 7 does not exist", contentType := none } :=
  ⟨(c10_numeric_addressing "/todo/007" "todo/7/" "007" "7" seedStore rfl rfl rfl).1,
   (c10_numeric_addressing "/todo/007" "todo/7/" "007" "7" seedStore rfl rfl rfl).2.2 rfl⟩

end RestGo
